import Mathlib

/-!
Verification development for the Algernon web server startup pipeline
(`main.go`). The definitions below shallowly embed the control flow of the
`main` function: external effects (filesystem probes, script execution,
listener establishment) are abstracted as boolean-valued environment fields,
and observable behaviour is recorded as a trace of events. Components whose
source is not part of the repository snapshot (the shutdown registry drained
by `generateShutdownFunction`, the `fatalExit` helper, the `serve` protocol
state machine and the Lua state pool `Shutdown` method) are modelled from the
design specification; such definitions carry a doc comment saying so.
-/

/-- Observable events of the startup pipeline. -/
inductive Event where
  | execute (f : String)
  | logError (m : String)
  | logWarn (m : String)
  | runAction (name : String)
  | cleanupError (name : String)
  | registerHandlers
  | tempDirRemoved
  | exit
  deriving DecidableEq, Repr

/-- A registered shutdown action: its name and whether invoking it raises an
error. -/
abbrev ShutdownAction : Type := String × Bool

/-- Modelled from the spec: the shutdown-registry drain performed by
`generateShutdownFunction` (not under src/). Every registered action is
invoked in registration order; an error raised by an action is logged and
never propagated, so later actions still run. -/
def runAll (registry : List ShutdownAction) : List Event :=
  registry.flatMap (fun a =>
    Event.runAction a.1 :: if a.2 then [Event.cleanupError a.1] else [])

/-- Extracts the name of a run-action event. -/
def runActionName : Event → Option String
  | Event.runAction n => some n
  | _ => none

/-- Modelled from the spec: `fatalExit` (not under src/) terminates the
process after running the Shutdown Coordinator: the registry is drained and
then the process exits. Being a process exit, it does not run the deferred
statements of `main`. -/
def fatalExit (registry : List ShutdownAction) : List Event :=
  runAll registry ++ [Event.exit]

/-- Environment of the configuration loop of `main.go` (lines 228-246):
`fsExists` abstracts `fs.exists`, `runOk` abstracts whether
`runConfiguration` returns a nil error, `permPresent` is `perm != nil`. -/
structure ConfigEnv where
  fsExists : String → Bool
  runOk : String → Bool
  permPresent : Bool

/-- Result of the configuration loop: either it runs to completion with the
list assigned to `serverConfigurationFilenames`, or `fatalExit` was reached
with the list accumulated so far. -/
inductive ConfigOutcome where
  | done (ran : List String)
  | fatalExitAt (ran : List String)
  deriving DecidableEq, Repr

/-- The configuration-script loop of `main.go` (lines 228-246). For each
filename: if it exists, `runConfiguration` is invoked; on error the error is
logged and, if a permission backend is present, `fatalExit` is reached,
otherwise a warning is logged; in every non-fatal case the filename is
appended to `ranConfigurationFilenames`. Returns the outcome together with
the event trace of the loop body. -/
def configLoop (env : ConfigEnv) : List String → List String → ConfigOutcome × List Event
  | [], ran => (ConfigOutcome.done ran, [])
  | f :: rest, ran =>
    if env.fsExists f then
      if env.runOk f then
        let r := configLoop env rest (ran ++ [f])
        (r.1, Event.execute f :: r.2)
      else if env.permPresent then
        (ConfigOutcome.fatalExitAt ran,
          [Event.execute f, Event.logError ("Could not use configuration script: " ++ f)])
      else
        let r := configLoop env rest (ran ++ [f])
        (r.1, Event.execute f :: Event.logError ("Could not use configuration script: " ++ f)
          :: Event.logWarn "Ignoring script error since database backend is disabled." :: r.2)
    else configLoop env rest ran

/-- The configuration loop followed by the fatal-exit continuation: when the
loop reaches `fatalExit`, the shutdown registry is drained and the process
exits (`fatalExit` modelled from the spec). -/
def configPhase (env : ConfigEnv) (registry : List ShutdownAction)
    (files : List String) : ConfigOutcome × List Event :=
  let r := configLoop env files []
  match r.1 with
  | ConfigOutcome.fatalExitAt ran => (ConfigOutcome.fatalExitAt ran, r.2 ++ fatalExit registry)
  | ConfigOutcome.done ran => (ConfigOutcome.done ran, r.2)

/-- Concrete environment for the active-sources scenario: every file exists,
the script "B" fails, no permission backend. -/
def envTolerant : ConfigEnv :=
  { fsExists := fun _ => true, runOk := fun f => !(f == "B"), permPresent := false }

/-- The standalone-Lua-server phase of `main.go` (lines 249-261): when
`luaServerFilename` is nonempty it is run through `runConfiguration` and an
error leads unconditionally to `fatalExit`; otherwise `registerHandlers` is
invoked. The permission handle is passed through to `runConfiguration` but
the error policy of this phase does not consult it, hence the unused
`permPresent` parameter. -/
def serverScriptPhase (luaServerFilename : String) (runOk : Bool)
    (permPresent : Bool) (registry : List ShutdownAction) : List Event :=
  if luaServerFilename != "" then
    if runOk then [Event.execute luaServerFilename]
    else
      [Event.execute luaServerFilename,
        Event.logError ("Error in Lua server script: " ++ luaServerFilename)]
        ++ fatalExit registry
  else [Event.registerHandlers]

/-- Result of the database-backend setup of `main.go` (lines 171-183):
either `log.Fatalln` is reached because no usable backend was found, or a
permission handle is produced which is present (non-nil) or absent (nil). -/
inductive PermSetup where
  | fatalDB
  | perm (present : Bool)
  deriving DecidableEq, Repr

/-- The database-backend setup of `main.go` (lines 171-183): if the BoltDB
filename is `/dev/null` the database backend is disabled; with the backend
disabled `perm` stays nil; otherwise `aquirePermissions` is called and its
failure reaches `log.Fatalln`. -/
def setupPermissions (boltFilename : String) (useNoDatabase acquireOk : Bool) :
    PermSetup :=
  let useNoDB := if boltFilename == "/dev/null" then true else useNoDatabase
  if useNoDB then PermSetup.perm false
  else if acquireOk then PermSetup.perm true
  else PermSetup.fatalDB

/-- Mode with which a file handle is opened: `os.Open` yields a read-only
handle, `os.OpenFile` with `O_CREATE|O_APPEND|O_WRONLY` a write handle. -/
inductive FileMode where
  | readOnly
  | writeCreateAppend
  deriving DecidableEq, Repr

/-- Where the internal diagnostic log ends up directed. -/
inductive InternalLogTarget where
  | directed (filename : String) (mode : FileMode)
  | fatalAbort
  deriving DecidableEq, Repr

/-- Filesystem environment for the internal-log setup: whether opening a
given filename with a given mode succeeds. -/
structure LogEnv where
  openOk : String → FileMode → Bool

/-- The internal-log redirection of `main.go` (lines 283-299): the configured
target is opened with `os.Open` (read-only); on failure, the single fixed
alternate filename `internal.log` is opened with
`os.OpenFile(O_CREATE|O_APPEND|O_WRONLY)`; if that also fails, `fatalExit`
is reached; otherwise `internallog.SetOutput` is pointed at the opened
handle. -/
def internalLogSetup (env : LogEnv) (internalLogFilename : String) :
    InternalLogTarget :=
  if env.openOk internalLogFilename FileMode.readOnly then
    InternalLogTarget.directed internalLogFilename FileMode.readOnly
  else if env.openOk "internal.log" FileMode.writeCreateAppend then
    InternalLogTarget.directed "internal.log" FileMode.writeCreateAppend
  else InternalLogTarget.fatalAbort

/-- Environment abstracting the external effects of `main` (directory-serving
run: `fs.isDir(serverDir)` holds, no version/quiet/single-file special
cases, `serverLogFile` empty, REPL and auto-refresh disabled — none of which
register cleanup actions or open fatal paths in the modelled run). -/
structure MainEnv where
  tempDirOk : Bool
  profileCPU : Bool
  profileMem : Bool
  boltFilename : String
  useNoDatabase : Bool
  acquirePermOk : Bool
  fsExists : String → Bool
  runOk : String → Bool
  serverConfigurationFilenames : List String
  luaServerFilename : String
  luaServerOk : Bool
  openInternalLogOk : Bool
  openFallbackLogOk : Bool
  serveOk : Bool

/-- The event trace of `main` (main.go lines 38-356), directory-serving run.
Fatal checkpoints in program order: failed `ioutil.TempDir` reaches
`log.Fatalln` (immediate exit, nothing registered yet); failed
`aquirePermissions` reaches `log.Fatalln` (immediate exit: neither the
shutdown registry nor the deferred `os.RemoveAll(serverTempDir)` runs);
failed configuration script with `perm != nil`, failed Lua server script,
failed internal-log fallback and failed `serve` all reach `fatalExit`, which
drains the registry and exits — `os.Exit` still skips the deferred
`os.RemoveAll`. Only a normal return of `main` runs the deferred
`generateShutdownFunction` drain followed by the deferred temp-dir removal.
The registry is built by the `atShutdown` calls in program order: CPU
profiler stop (lines 72-75), heap-profile writer (lines 79-89), Lua pool
shutdown (lines 187-189), and the fallback internal-log close (lines
289-294, registered only when the primary open failed). -/
def mainTrace (env : MainEnv) : List Event :=
  if !env.tempDirOk then [Event.exit]
  else
    let reg0 : List ShutdownAction :=
      (if env.profileCPU then [("stopCPUProfile", false)] else [])
        ++ (if env.profileMem then [("writeHeapProfile", false)] else [])
    let useNoDB := env.boltFilename == "/dev/null" || env.useNoDatabase
    if !useNoDB && !env.acquirePermOk then [Event.exit]
    else
      let permPresent := !useNoDB
      let reg1 := reg0 ++ [("luapoolShutdown", false)]
      let cenv : ConfigEnv :=
        { fsExists := env.fsExists, runOk := env.runOk, permPresent := permPresent }
      let cres := configLoop cenv env.serverConfigurationFilenames []
      match cres.1 with
      | ConfigOutcome.fatalExitAt _ => cres.2 ++ fatalExit reg1
      | ConfigOutcome.done _ =>
        let str := serverScriptPhase env.luaServerFilename env.luaServerOk permPresent reg1
        if env.luaServerFilename != "" && !env.luaServerOk then cres.2 ++ str
        else
          let reg2 :=
            if env.openInternalLogOk then reg1
            else reg1 ++ [("internalLogFileClose", false)]
          if !env.openInternalLogOk && !env.openFallbackLogOk then
            cres.2 ++ str ++ fatalExit reg2
          else if !env.serveOk then cres.2 ++ str ++ fatalExit reg2
          else cres.2 ++ str ++ runAll reg2 ++ [Event.tempDirRemoved]

/-- Concrete environment in which the database backend is required but
unusable, while a cleanup action (the CPU-profiler stop) is registered and
the temporary directory has been created. -/
def envDBFail : MainEnv :=
  { tempDirOk := true, profileCPU := true, profileMem := false,
    boltFilename := "bolt.db", useNoDatabase := false, acquirePermOk := false,
    fsExists := fun _ => true, runOk := fun _ => true,
    serverConfigurationFilenames := [], luaServerFilename := "",
    luaServerOk := true, openInternalLogOk := true, openFallbackLogOk := true,
    serveOk := true }

/-- Filesystem in which every open succeeds. -/
def envLogOpenAll : LogEnv := ⟨fun _ _ => true⟩

/-- Filesystem in which only `internal.log` can be opened. -/
def envLogFallbackOnly : LogEnv := ⟨fun f _ => f == "internal.log"⟩

/-- Filesystem in which no open succeeds. -/
def envLogOpenNone : LogEnv := ⟨fun _ _ => false⟩

/-- A Lua interpreter state, identified by a tag. -/
structure LuaState where
  id : Nat
  deriving DecidableEq, Repr

/-- The Lua state pool created in `main.go` (line 186): the `saved` list of
available states, plus a flag recording that the pool has been shut down. -/
structure lStatePool where
  saved : List LuaState
  poolClosed : Bool
  deriving DecidableEq, Repr

/-- Modelled from the spec: `lStatePool.Shutdown` (not under src/; only its
call site at main.go line 188 is) finalizes every context currently held by
the pool and marks the pool closed. Returns the new pool state together with
the list of contexts finalized by this call. -/
def lStatePool.Shutdown (p : lStatePool) : lStatePool × List LuaState :=
  ({ saved := [], poolClosed := true }, p.saved)

/-- The server configuration assembled in `main.go` (lines 337-347). -/
structure algernonServerConfig where
  productionMode : Bool
  serverHost : String
  serverAddr : String
  serverCert : String
  serverKey : String
  serveJustHTTP : Bool
  serveJustHTTP2 : Bool
  shutdownTimeout : Nat
  internalLogFilename : String
  deriving DecidableEq, Repr

/-- Protocol modes of the Protocol Server state machine. -/
inductive ProtocolState where
  | PlainHTTP
  | UpgradedHTTP
  | SecureUpgradedHTTP
  | Production
  deriving DecidableEq, Repr

/-- Events of the Protocol Server: an attempt to establish a listener in a
mode at an address, and the warning logged when the secure listener fails. -/
inductive ServeEvent where
  | attempt (s : ProtocolState) (addr : String)
  | warnSecureFailed
  deriving DecidableEq, Repr

/-- Ordering of protocol modes by strength, the composite production mode
strongest. -/
def modeStrength : ProtocolState → Nat
  | ProtocolState.PlainHTTP => 0
  | ProtocolState.UpgradedHTTP => 1
  | ProtocolState.SecureUpgradedHTTP => 2
  | ProtocolState.Production => 3

/-- Modelled from the spec: the `serve` function (not under src/; only its
call site at main.go line 353 is), the Protocol Server state machine of
spec section 4.4. Selection precedence: production mode; then upgraded-only;
then, when neither upgraded-only nor plain-only is set, attempt the secure
upgraded listener, falling through with a logged warning to plain HTTP on
the same address when establishing it fails; otherwise plain HTTP. -/
def serveTrace (conf : algernonServerConfig) (secureListenOk : Bool) :
    List ServeEvent :=
  if conf.productionMode then
    [ServeEvent.attempt ProtocolState.Production conf.serverAddr]
  else if conf.serveJustHTTP2 then
    [ServeEvent.attempt ProtocolState.UpgradedHTTP conf.serverAddr]
  else if !conf.serveJustHTTP then
    if secureListenOk then
      [ServeEvent.attempt ProtocolState.SecureUpgradedHTTP conf.serverAddr]
    else
      [ServeEvent.attempt ProtocolState.SecureUpgradedHTTP conf.serverAddr,
        ServeEvent.warnSecureFailed,
        ServeEvent.attempt ProtocolState.PlainHTTP conf.serverAddr]
  else [ServeEvent.attempt ProtocolState.PlainHTTP conf.serverAddr]

/-- The protocol modes attempted, in order, within one serve trace. -/
def attemptStates (tr : List ServeEvent) : List ProtocolState :=
  tr.filterMap (fun e =>
    match e with
    | ServeEvent.attempt s _ => some s
    | _ => none)

/-- A server configuration with production mode, plain-only and
upgraded-only all unset. -/
def confNoFlags : algernonServerConfig :=
  { productionMode := false, serverHost := "localhost", serverAddr := ":3000",
    serverCert := "cert.pem", serverKey := "key.pem", serveJustHTTP := false,
    serveJustHTTP2 := false, shutdownTimeout := 10,
    internalLogFilename := "/dev/null" }

theorem execute_not_mem_runAll (reg : List ShutdownAction) (f : String) :
    Event.execute f ∉ runAll reg := by
  intro h
  simp only [runAll, List.mem_flatMap] at h
  obtain ⟨a, -, ha⟩ := h
  cases hb : a.2 <;> simp [hb] at ha

theorem runAll_filterMap_names (r : List ShutdownAction) :
    (runAll r).filterMap runActionName = r.map Prod.fst := by
  induction r with
  | nil => rfl
  | cons a rest ih =>
    cases h : a.2 <;> simp [runAll, runActionName, h] at ih ⊢ <;> exact ih

/-- C4: when the shutdown registry is drained, every registered action is
invoked exactly once, in registration order (the run-action events of the
drain trace are exactly the registered names, in order), and an error raised
by an action is logged as a cleanup-error event and never prevents later
actions from running; the drain is a pure function of the registry, hence
deterministic across runs. -/
theorem runAll_order_and_swallow (r : List ShutdownAction) :
    (runAll r).filterMap runActionName = r.map Prod.fst
    ∧ ∀ a ∈ r, a.2 = true → Event.cleanupError a.1 ∈ runAll r := by
  refine ⟨runAll_filterMap_names r, ?_⟩
  intro a ha h2
  simp only [runAll, List.mem_flatMap]
  exact ⟨a, ha, by simp [h2]⟩

/-- Witness for C4 at the registry of the specification example: profiler
stop, profile-file writer (which fails), pool shutdown, log close. -/
theorem runAll_order_and_swallow_witness :
    (runAll [("stopCPUProfile", false), ("writeHeapProfile", true),
        ("luapoolShutdown", false), ("closeLog", false)]).filterMap runActionName
      = ["stopCPUProfile", "writeHeapProfile", "luapoolShutdown", "closeLog"]
    ∧ Event.cleanupError "writeHeapProfile"
        ∈ runAll [("stopCPUProfile", false), ("writeHeapProfile", true),
            ("luapoolShutdown", false), ("closeLog", false)] := by
  have h := runAll_order_and_swallow
    [("stopCPUProfile", false), ("writeHeapProfile", true),
      ("luapoolShutdown", false), ("closeLog", false)]
  exact ⟨h.1, h.2 ("writeHeapProfile", true) (by decide) rfl⟩

/-- C1 counterexample: with sources `["A", "B", "C"]`, every file existing,
the script `"B"` failing and no permission backend, the active-sources
result is not `["A", "C"]`: the code appends a filename even when its script
failed, as long as the failure was tolerated. -/
theorem configLoop_active_sources_counterexample :
    (configLoop envTolerant ["A", "B", "C"] []).1 ≠ ConfigOutcome.done ["A", "C"] := by
  decide

/-- C1 (amended): with sources `[a, b, c]` all existing, `b` failing and no
permission backend, the active-sources result is `[a, b, c]` — a source is
appended whenever its script was executed, regardless of success — and `c`
is still executed after the failure of `b`. -/
theorem configLoop_tolerant_keeps_all (a b c : String) (fsE rOk : String → Bool)
    (ha : fsE a = true) (hb : fsE b = true) (hc : fsE c = true)
    (ra : rOk a = true) (rb : rOk b = false) (rc : rOk c = true) :
    (configLoop ⟨fsE, rOk, false⟩ [a, b, c] []).1 = ConfigOutcome.done [a, b, c]
    ∧ Event.execute c ∈ (configLoop ⟨fsE, rOk, false⟩ [a, b, c] []).2 := by
  simp [configLoop, ha, hb, hc, ra, rb, rc]

/-- Witness for the amended C1 at the concrete task `["A", "B", "C"]`. -/
theorem configLoop_tolerant_keeps_all_witness :
    (configLoop ⟨fun _ => true, fun f => !(f == "B"), false⟩ ["A", "B", "C"] []).1
        = ConfigOutcome.done ["A", "B", "C"]
    ∧ Event.execute "C"
        ∈ (configLoop ⟨fun _ => true, fun f => !(f == "B"), false⟩ ["A", "B", "C"] []).2 :=
  configLoop_tolerant_keeps_all "A" "B" "C" (fun _ => true) (fun f => !(f == "B"))
    rfl rfl rfl (by decide) (by decide) (by decide)

/-- C8: shutting the Lua state pool down twice has the same observable
effect as doing it once: the pool state is unchanged by the second call and
the second call finalizes no context. -/
theorem lStatePool_Shutdown_idempotent (p : lStatePool) :
    p.Shutdown.1.Shutdown.1 = p.Shutdown.1 ∧ p.Shutdown.1.Shutdown.2 = [] :=
  ⟨rfl, rfl⟩

/-- C7: on the three filesystem outcomes — primary open succeeds, primary
fails but the single fixed alternate `internal.log` succeeds, both fail —
the internal log is directed at the primary target (but with a read-only
handle, since `os.Open` is used), at `internal.log` opened for writing, or
the process aborts fatally, respectively. -/
theorem internalLog_primary_readonly :
    internalLogSetup envLogOpenAll "access.log"
        = InternalLogTarget.directed "access.log" FileMode.readOnly
    ∧ internalLogSetup envLogFallbackOnly "access.log"
        = InternalLogTarget.directed "internal.log" FileMode.writeCreateAppend
    ∧ internalLogSetup envLogOpenNone "access.log" = InternalLogTarget.fatalAbort := by
  refine ⟨by decide, by decide, by decide⟩

/-- C3: in the run where the database backend is required but unusable —
with the temporary directory created and a cleanup action registered — the
trace of `main` is a bare immediate exit: no registered cleanup action runs
and the temporary directory is never removed. -/
theorem mainTrace_db_failure_skips_cleanup :
    mainTrace envDBFail = [Event.exit]
    ∧ Event.tempDirRemoved ∉ mainTrace envDBFail
    ∧ ∀ n, Event.runAction n ∉ mainTrace envDBFail := by
  have h : mainTrace envDBFail = [Event.exit] := by decide
  refine ⟨h, ?_, ?_⟩
  · rw [h]; simp
  · intro n; rw [h]; simp

theorem registerHandlers_not_mem_runAll (reg : List ShutdownAction) :
    Event.registerHandlers ∉ runAll reg := by
  intro h
  simp only [runAll, List.mem_flatMap] at h
  obtain ⟨a, -, ha⟩ := h
  cases hb : a.2 <;> simp [hb] at ha

/-- C2: with sources `[a, b, c]` where `a` and `b` exist, `a` succeeds, `b`
fails and a permission backend is present, the pipeline reaches `fatalExit`
at `b`: the active list stops at `[a]`, `c` is never executed, and the exit
event comes only after the whole shutdown-registry drain. -/
theorem configPhase_fatal_with_perm (a b c : String) (reg : List ShutdownAction)
    (fsE rOk : String → Bool)
    (ha : fsE a = true) (hb : fsE b = true)
    (ra : rOk a = true) (rb : rOk b = false)
    (hca : c ≠ a) (hcb : c ≠ b) :
    (configPhase ⟨fsE, rOk, true⟩ reg [a, b, c]).1 = ConfigOutcome.fatalExitAt [a]
    ∧ (configPhase ⟨fsE, rOk, true⟩ reg [a, b, c]).2
        = [Event.execute a, Event.execute b,
            Event.logError ("Could not use configuration script: " ++ b)]
          ++ runAll reg ++ [Event.exit]
    ∧ Event.execute c ∉ (configPhase ⟨fsE, rOk, true⟩ reg [a, b, c]).2 := by
  have h1 : configLoop ⟨fsE, rOk, true⟩ [a, b, c] []
      = (ConfigOutcome.fatalExitAt [a],
          [Event.execute a, Event.execute b,
            Event.logError ("Could not use configuration script: " ++ b)]) := by
    simp [configLoop, ha, hb, ra, rb]
  refine ⟨?_, ?_, ?_⟩
  · simp [configPhase, h1]
  · simp [configPhase, h1, fatalExit]
  · simp only [configPhase, h1]
    simp [hca, hcb, execute_not_mem_runAll reg c, fatalExit]

/-- Witness for C2 at the concrete task `["A", "B", "C"]` with a one-action
registry. -/
theorem configPhase_fatal_with_perm_witness :
    (configPhase ⟨fun _ => true, fun f => !(f == "B"), true⟩
        [("luapoolShutdown", false)] ["A", "B", "C"]).1
      = ConfigOutcome.fatalExitAt ["A"]
    ∧ Event.execute "C"
        ∉ (configPhase ⟨fun _ => true, fun f => !(f == "B"), true⟩
            [("luapoolShutdown", false)] ["A", "B", "C"]).2 := by
  have h := configPhase_fatal_with_perm "A" "B" "C" [("luapoolShutdown", false)]
    (fun _ => true) (fun f => !(f == "B")) rfl rfl (by decide) (by decide)
    (by decide) (by decide)
  exact ⟨h.1, h.2.2⟩

/-- C5: with production mode, upgraded-only and plain-only all unset and the
secure listener failing to establish, the Protocol Server attempts the
secure upgraded mode, logs a warning, and performs exactly one downgrade to
plain HTTP on the same address — the whole trace is those three events — and
in every serve trace the sequence of attempted modes is strictly decreasing
in strength, so a weaker mode is never followed by a stronger one. -/
theorem serveTrace_one_shot_downgrade (conf : algernonServerConfig)
    (h1 : conf.productionMode = false) (h2 : conf.serveJustHTTP2 = false)
    (h3 : conf.serveJustHTTP = false) :
    serveTrace conf false
      = [ServeEvent.attempt ProtocolState.SecureUpgradedHTTP conf.serverAddr,
          ServeEvent.warnSecureFailed,
          ServeEvent.attempt ProtocolState.PlainHTTP conf.serverAddr]
    ∧ ∀ (c : algernonServerConfig) (ok : Bool),
        List.Chain' (fun s t => modeStrength t < modeStrength s)
          (attemptStates (serveTrace c ok)) := by
  constructor
  · simp [serveTrace, h1, h2, h3]
  · intro c ok
    unfold serveTrace
    split_ifs <;> simp [attemptStates, modeStrength]

/-- Witness for C5 at a concrete flagless configuration. -/
theorem serveTrace_one_shot_downgrade_witness :
    serveTrace confNoFlags false
      = [ServeEvent.attempt ProtocolState.SecureUpgradedHTTP ":3000",
          ServeEvent.warnSecureFailed,
          ServeEvent.attempt ProtocolState.PlainHTTP ":3000"] :=
  (serveTrace_one_shot_downgrade confNoFlags rfl rfl rfl).1

/-- C6: the terminal server script and default handler registration are
mutually exclusive: with a nonempty `luaServerFilename` the phase executes
the script and emits no `registerHandlers` event; with an empty one the
phase is exactly one `registerHandlers` invocation. -/
theorem serverScriptPhase_exclusive (lua : String) (ok perm : Bool)
    (reg : List ShutdownAction) :
    (lua ≠ "" → (serverScriptPhase lua ok perm reg).count Event.registerHandlers = 0
      ∧ Event.execute lua ∈ serverScriptPhase lua ok perm reg)
    ∧ (lua = "" → serverScriptPhase lua ok perm reg = [Event.registerHandlers]) := by
  constructor
  · intro h
    have hbne : (lua != "") = true := bne_iff_ne.mpr h
    cases ok with
    | false =>
      constructor
      · simp [serverScriptPhase, hbne, fatalExit, List.count_eq_zero,
          registerHandlers_not_mem_runAll reg]
      · simp [serverScriptPhase, hbne]
    | true =>
      constructor
      · simp [serverScriptPhase, hbne, List.count_eq_zero]
      · simp [serverScriptPhase, hbne]
  · intro h
    subst h
    simp [serverScriptPhase]

/-- Witness for C6 at a designated script and at no script. -/
theorem serverScriptPhase_exclusive_witness :
    ((serverScriptPhase "server.lua" true true []).count Event.registerHandlers = 0
      ∧ Event.execute "server.lua" ∈ serverScriptPhase "server.lua" true true [])
    ∧ serverScriptPhase "" true true [] = [Event.registerHandlers] :=
  ⟨(serverScriptPhase_exclusive "server.lua" true true []).1 (by decide),
    (serverScriptPhase_exclusive "" true true []).2 rfl⟩

/-- C9: an execution error in the terminal server script is always fatal,
for either value of the permission handle: the phase ends with the registry
drain and the exit event, and the trace does not depend on the permission
handle at all. -/
theorem serverScriptPhase_error_always_fatal (lua : String) (h : lua ≠ "")
    (perm : Bool) (reg : List ShutdownAction) :
    serverScriptPhase lua false perm reg
      = [Event.execute lua, Event.logError ("Error in Lua server script: " ++ lua)]
        ++ runAll reg ++ [Event.exit]
    ∧ serverScriptPhase lua false true reg = serverScriptPhase lua false false reg := by
  have hbne : (lua != "") = true := bne_iff_ne.mpr h
  exact ⟨by simp [serverScriptPhase, hbne, fatalExit], rfl⟩

/-- Witness for C9 at a concrete failing server script. -/
theorem serverScriptPhase_error_always_fatal_witness :
    serverScriptPhase "server.lua" false true []
      = [Event.execute "server.lua",
          Event.logError ("Error in Lua server script: " ++ "server.lua")]
        ++ runAll [] ++ [Event.exit] :=
  (serverScriptPhase_error_always_fatal "server.lua" (by decide) true []).1

theorem configLoop_done_of_no_perm (fsE rOk : String → Bool) :
    ∀ (files acc : List String),
      ∃ ran, (configLoop ⟨fsE, rOk, false⟩ files acc).1 = ConfigOutcome.done ran := by
  intro files
  induction files with
  | nil => exact fun acc => ⟨acc, rfl⟩
  | cons f rest ih =>
    intro acc
    by_cases h1 : fsE f = true
    · by_cases h2 : rOk f = true
      · simpa [configLoop, h1, h2] using ih (acc ++ [f])
      · have h2' : rOk f = false := by
          simpa using h2
        simpa [configLoop, h1, h2'] using ih (acc ++ [f])
    · have h1' : fsE f = false := by
        simpa using h1
      simpa [configLoop, h1'] using ih acc

theorem configLoop_warn_of_failed (fsE rOk : String → Bool) (f : String)
    (hfe : fsE f = true) (hfr : rOk f = false) :
    ∀ (files : List String), f ∈ files → ∀ acc : List String,
      Event.logWarn "Ignoring script error since database backend is disabled."
        ∈ (configLoop ⟨fsE, rOk, false⟩ files acc).2 := by
  intro files
  induction files with
  | nil => intro h; cases h
  | cons g rest ih =>
    intro hf acc
    rcases List.mem_cons.mp hf with hg | hg
    · subst hg
      simp [configLoop, hfe, hfr]
    · by_cases h1 : fsE g = true
      · by_cases h2 : rOk g = true
        · simpa [configLoop, h1, h2] using ih hg (acc ++ [g])
        · have h2' : rOk g = false := by
            simpa using h2
          simp [configLoop, h1, h2']
      · have h1' : fsE g = false := by
          simpa using h1
        simpa [configLoop, h1'] using ih hg acc

/-- C10: with the BoltDB filename `/dev/null`, the database backend is
disabled and the permission handle is absent regardless of the other flags;
consequently the configuration loop run with an absent handle never reaches
`fatalExit`, and a failing existing script produces the downgrade warning. -/
theorem devnull_disables_db (u a : Bool) (fsE rOk : String → Bool)
    (files : List String) (f : String) (hf : f ∈ files)
    (hfe : fsE f = true) (hfr : rOk f = false) :
    setupPermissions "/dev/null" u a = PermSetup.perm false
    ∧ (∃ ran, (configLoop ⟨fsE, rOk, false⟩ files []).1 = ConfigOutcome.done ran)
    ∧ Event.logWarn "Ignoring script error since database backend is disabled."
        ∈ (configLoop ⟨fsE, rOk, false⟩ files []).2 :=
  ⟨rfl, configLoop_done_of_no_perm fsE rOk files [],
    configLoop_warn_of_failed fsE rOk f hfe hfr files hf []⟩

/-- Witness for C10 at a single existing, failing script. -/
theorem devnull_disables_db_witness :
    setupPermissions "/dev/null" false false = PermSetup.perm false
    ∧ (∃ ran,
        (configLoop ⟨fun _ => true, fun _ => false, false⟩ ["a.lua"] []).1
          = ConfigOutcome.done ran)
    ∧ Event.logWarn "Ignoring script error since database backend is disabled."
        ∈ (configLoop ⟨fun _ => true, fun _ => false, false⟩ ["a.lua"] []).2 :=
  devnull_disables_db false false (fun _ => true) (fun _ => false) ["a.lua"]
    "a.lua" (by decide) rfl rfl

